import Mathlib

/-!
Verification of the datastore/collection CLI layer of the blockstack client
(src/blockstack_client/actions.py) against its natural-language specification.

The functions of actions.py are embedded below as Lean definitions.  The data
layer they call (module blockstack_client.data: datastore_putfile,
datastore_getfile, datastore_listdir, datastore_stat, datastore_rmtree,
put_datastore, delete_datastore, the version reconciler and the tombstone
manager) is not part of the sources under study; those collaborators are
modelled from the specification text, and every such definition carries a doc
comment beginning with the words Modelled from the spec.
-/

namespace Blockstack

/-- POSIX errno EPERM, as used by the source through the errno module. -/
def EPERM : Nat := 1

/-- POSIX errno ENOENT. -/
def ENOENT : Nat := 2

/-- POSIX errno EEXIST. -/
def EEXIST : Nat := 17

/-- POSIX errno ENOTDIR. -/
def ENOTDIR : Nat := 20

/-- POSIX errno EISDIR. -/
def EISDIR : Nat := 21

/-- POSIX errno EINVAL. -/
def EINVAL : Nat := 22

/-- POSIX errno ENOTEMPTY. -/
def ENOTEMPTY : Nat := 39

/-- A result dictionary as returned by the cli layer: the keys that the
claims inspect, each optional exactly as a Python dict key is.  A dict with
the key status set to True and no error key is a success payload; a dict with
an error key (and possibly an errno key) is an error result. -/
structure Res where
  status : Bool
  error : Option String
  errno : Option Nat
  datastoreId : Option String
  file : Option String
  dir : Option (List (String × Nat))
  version : Option Nat
deriving Repr, DecidableEq

/-- The success dict with only the key status set to True. -/
def Res.okStatus : Res := ⟨true, none, none, none, none, none, none⟩

/-- An error dict with no errno key. -/
def Res.err (msg : String) : Res := ⟨false, some msg, none, none, none, none, none⟩

/-- An error dict carrying an errno. -/
def Res.errNo (msg : String) (e : Nat) : Res := ⟨false, some msg, some e, none, none, none, none⟩

/-- A success dict carrying a file payload. -/
def Res.okFile (d : String) : Res := ⟨true, none, none, none, some d, none, none⟩

/-- A success dict carrying a directory listing. -/
def Res.okDir (l : List (String × Nat)) : Res := ⟨true, none, none, none, none, some l, none⟩

/-- Python test for the key error being present in a result dict. -/
def Res.hasError (r : Res) : Bool := r.error.isSome

/-- The same dict with the errno key set to EPERM when it was absent,
mirroring the pattern used by the source on backend lookup errors. -/
def Res.withDefaultEPERM (r : Res) : Res :=
  match r.errno with
  | some _ => r
  | none => ⟨r.status, r.error, some EPERM, r.datastoreId, r.file, r.dir, r.version⟩

/-- Association-list lookup, the shape in which Python dict state is embedded. -/
def alistGet {α β : Type} [DecidableEq α] : List (α × β) → α → Option β
  | [], _ => none
  | e :: rest, k => if e.1 = k then some e.2 else alistGet rest k

/-- Association-list removal of a key. -/
def alistRemove {α β : Type} [DecidableEq α] : List (α × β) → α → List (α × β)
  | [], _ => []
  | e :: rest, k => if e.1 = k then alistRemove rest k else e :: alistRemove rest k

/-- Association-list overwrite-by-key, the write discipline of the storage
layer (overwrite-by-key on write, spec section 5). -/
def alistPut {α β : Type} [DecidableEq α] (l : List (α × β)) (k : α) (v : β) : List (α × β) :=
  (k, v) :: alistRemove l k

theorem alistGet_put_same {α β : Type} [DecidableEq α] (l : List (α × β)) (k : α) (v : β) :
    alistGet (alistPut l k v) k = some v := by
  simp [alistPut, alistGet]

theorem alistGet_remove_ne {α β : Type} [DecidableEq α] (l : List (α × β)) (k k2 : α)
    (h : k2 ≠ k) : alistGet (alistRemove l k) k2 = alistGet l k2 := by
  induction l with
  | nil => simp [alistRemove, alistGet]
  | cons e rest ih =>
    simp only [alistRemove]
    by_cases he : e.1 = k
    · have hk : e.1 ≠ k2 := fun hk2 => h (hk2 ▸ he)
      rw [if_pos he, alistGet, if_neg hk]
      exact ih
    · rw [if_neg he, alistGet, alistGet]
      by_cases hk : e.1 = k2
      · rw [if_pos hk, if_pos hk]
      · rw [if_neg hk, if_neg hk]
        exact ih

theorem alistGet_put_ne {α β : Type} [DecidableEq α] (l : List (α × β)) (k k2 : α) (v : β)
    (h : k2 ≠ k) : alistGet (alistPut l k v) k2 = alistGet l k2 := by
  simp only [alistPut, alistGet, if_neg (fun hk : k = k2 => h hk.symm)]
  exact alistGet_remove_ne l k k2 h

/-- Python exceptions that the embedded cli functions can raise.  A function
of type Except PyExc Res either returns a result dict or terminates by
raising. -/
inductive PyExc
  | attributeError
  | unboundLocalError
  | typeError
deriving Repr, DecidableEq

/-- Python truthiness of an optional attribute value, as tested by the idiom
hasattr(args, a) and args.a: present and a non-empty string. -/
def pyTruthy : Option String → Bool
  | none => false
  | some s => s ≠ ""

/-- A Python attribute access v.split on a value that may be None: None has
no attribute split, so Python raises AttributeError there. -/
def pyNoneSplit : Option String → Except PyExc (List String)
  | none => Except.error PyExc.attributeError
  | some s => Except.ok (s.splitOn ",")

/-- Reading a Python local variable before its first assignment raises
UnboundLocalError.  The Option value holds what the local is bound to so far:
none when the variable has not been assigned yet. -/
def pyReadLocal {α : Type} : Option α → Except PyExc α
  | none => Except.error PyExc.unboundLocalError
  | some v => Except.ok v

/-- Modelled from the spec: get_pubkey_hex of the key custody collaborator
(section 6), absent from the sources; derives the public key of a private
key, deterministically. -/
def get_pubkey_hex (privkey : String) : String := privkey ++ ".pub"

/-- Modelled from the spec: datastore_get_id is derive_id of section 4.1,
absent from the sources; a deterministic one-way hash of the public key. -/
def datastore_get_id (pubkey : String) : String := "id." ++ pubkey

/-- A datastore record as held by the backend: its type tag, its file
contents (path to payload bytes), an abstract staleness bit for the parent
directory of the paths being written (section 4.4 StaleData), and an
abstract bit resolving whether a recursive removal of its contents will
succeed (section 4.6 rmtree row: partial failure is possible). -/
structure DStore where
  dtype : String
  files : List (String × String)
  parentStale : Bool
  rmtreeOk : Bool
deriving Repr, DecidableEq

/-- The backend state reachable through the rpc handle: the stored datastore
records, keyed by datastore id. -/
structure RpcState where
  records : List (String × DStore)
deriving Repr, DecidableEq

/-- Modelled from the spec: rpc.backend_datastore_get (section 6
get_datastore), absent from the sources; returns the stored record, or an
error dict when there is no such datastore. -/
def backend_datastore_get (st : RpcState) (datastoreId : String) : Except Res DStore :=
  match alistGet st.records datastoreId with
  | some ds => Except.ok ds
  | none => Except.error (Res.errNo "No such datastore" ENOENT)

/-- Modelled from the spec: make_datastore_info (section 6 lifecycle), absent
from the sources; builds a fresh record of the given type with an empty root. -/
def make_datastore_info (datastore_type : String) : DStore :=
  ⟨datastore_type, [], false, true⟩

/-- Modelled from the spec: put_datastore (section 6 lifecycle), absent from
the sources; stores the new datastore record under its id. -/
def put_datastore (st : RpcState) (datastoreId : String) (info : DStore) : Res × RpcState :=
  (Res.okStatus, ⟨alistPut st.records datastoreId info⟩)

/-- Modelled from the spec: delete_datastore (section 6 lifecycle), absent
from the sources; removes the datastore record. -/
def delete_datastore (st : RpcState) (datastoreId : String) : Res × RpcState :=
  (Res.okStatus, ⟨alistRemove st.records datastoreId⟩)

/-- Modelled from the spec: datastore_putfile of the data layer (section 4.6
putfile row), absent from the sources.  It fails with EPERM on a stale
parent without force, with EEXIST when create is set and the leaf is
present, and otherwise creates or overwrites the file payload. -/
def datastore_putfile (ds : DStore) (path data : String) (create force : Bool) :
    Res × DStore :=
  if ds.parentStale && !force then
    (Res.errNo "Stale parent directory" EPERM, ds)
  else if create && (alistGet ds.files path).isSome then
    (Res.errNo "File exists" EEXIST, ds)
  else
    (Res.okStatus, ⟨ds.dtype, alistPut ds.files path data, ds.parentStale, ds.rmtreeOk⟩)

/-- Modelled from the spec: datastore_getfile of the data layer (section 4.6
getfile row), absent from the sources; returns the payload bytes, or ENOENT
when the leaf does not resolve. -/
def datastore_getfile (ds : DStore) (path : String) : Res :=
  match alistGet ds.files path with
  | some d => Res.okFile d
  | none => Res.errNo "No such file or directory" ENOENT

/-- Modelled from the spec: datastore_listdir of the data layer (section 4.6
listdir row), absent from the sources; the root listing names every file,
with the file type code 1. -/
def datastore_listdir (ds : DStore) (path : String) : Res :=
  if path = "/" then Res.okDir (ds.files.map (fun e => (e.1, 1)))
  else Res.errNo "No such file or directory" ENOENT

/-- Modelled from the spec: datastore_stat of the data layer (section 4.6
stat row), absent from the sources; returns inode metadata when the path
resolves and ENOENT otherwise. -/
def datastore_stat (ds : DStore) (path : String) : Res :=
  match alistGet ds.files path with
  | some _ => Res.okStatus
  | none => Res.errNo "No such file or directory" ENOENT

/-- Modelled from the spec: datastore_rmtree of the data layer (section 4.6
rmtree row), absent from the sources.  Partial failure is possible (section
9 open question); the record field rmtreeOk resolves whether this removal
succeeds.  On success every entry is removed; on failure the contents are
left as they are and an error dict is returned. -/
def datastore_rmtree (ds : DStore) : Res × DStore :=
  if ds.rmtreeOk then
    (Res.okStatus, ⟨ds.dtype, [], ds.parentStale, ds.rmtreeOk⟩)
  else
    (Res.err "Partial rmtree failure", ds)

/-! Source embeddings from src/blockstack_client/actions.py.  The local
filesystem that os.path.exists and open consult is passed in explicitly as an
association list from path to file contents. -/

/-- Embeds is_valid_path (actions.py lines 1063 to 1075): every character of
the string must lie in the printable set minus the weird whitespace, that is
the ASCII range from space to tilde. -/
def is_valid_path (p : String) : Bool :=
  p.toList.all (fun c => 0x20 ≤ c.toNat && c.toNat ≤ 0x7e)

/-- The os.path.exists test against the explicit local filesystem. -/
def os_path_exists (fs : List (String × String)) (p : String) : Bool :=
  (alistGet fs p).isSome

/-- Embeds datastore_file_put (actions.py lines 4101 to 4138).  When the data
string is a valid path naming an existing local file and force_data is not
set, the local file contents replace the data.  The function then fetches the
datastore record and calls datastore_putfile; note that the source call at
line 4134 passes no force argument, so the data layer runs with its default
force of False, and that the datastore_type parameter is never consulted. -/
def datastore_file_put (datastore_type privkey path data : String)
    (create force_data force : Bool) (device_ids : Option (List String))
    (fs : List (String × String)) (st : RpcState) : Res × RpcState :=
  let datastoreId := datastore_get_id (get_pubkey_hex privkey)
  let dataRes : Except Res String :=
    if is_valid_path data && os_path_exists fs data && !force_data then
      match alistGet fs data with
      | some contents => Except.ok contents
      | none => Except.error (Res.err ("Failed to read " ++ data))
    else Except.ok data
  match dataRes with
  | Except.error e => (e, st)
  | Except.ok data2 =>
    match backend_datastore_get st datastoreId with
    | Except.error e => (e, st)
    | Except.ok ds =>
      let out := datastore_putfile ds path data2 create false
      (out.1, ⟨alistPut st.records datastoreId out.2⟩)

/-- Embeds datastore_file_get (actions.py lines 4075 to 4098): fetch the
record (backend errors get a default errno of EPERM), reject a record whose
type differs from the requested one with an error dict that carries no
errno, and otherwise call down to datastore_getfile. -/
def datastore_file_get (datastore_type datastoreId path : String)
    (force : Bool) (device_ids : Option (List String)) (st : RpcState) : Res :=
  match backend_datastore_get st datastoreId with
  | Except.error e => e.withDefaultEPERM
  | Except.ok ds =>
    if ds.dtype ≠ datastore_type then
      Res.err (datastoreId ++ " is a " ++ ds.dtype)
    else
      datastore_getfile ds path

/-- Embeds datastore_dir_list (actions.py lines 4141 to 4170): fetch the
record (backend errors get a default errno of EPERM), reject a type mismatch
with EINVAL, reject any path other than the root for a collection with
EINVAL, and otherwise call down to datastore_listdir. -/
def datastore_dir_list (datastore_type datastoreId path : String)
    (force : Bool) (device_ids : Option (List String)) (st : RpcState) : Res :=
  match backend_datastore_get st datastoreId with
  | Except.error e => e.withDefaultEPERM
  | Except.ok ds =>
    if ds.dtype ≠ datastore_type then
      Res.errNo (datastoreId ++ " is a " ++ ds.dtype) EINVAL
    else if datastore_type = "collection" && path ≠ "/" then
      Res.errNo "Invalid argument: collections do not have directories" EINVAL
    else
      datastore_listdir ds path

/-- Embeds datastore_path_stat (actions.py lines 4173 to 4193): fetch the
record (backend errors returned as they are), reject a type mismatch with an
error dict that carries no errno, and otherwise call down to datastore_stat. -/
def datastore_path_stat (datastore_type datastoreId path : String)
    (force : Bool) (device_ids : Option (List String)) (st : RpcState) : Res :=
  match backend_datastore_get st datastoreId with
  | Except.error e => e
  | Except.ok ds =>
    if ds.dtype ≠ datastore_type then
      Res.err (datastoreId ++ " is a " ++ ds.dtype)
    else
      datastore_stat ds path

/-- Embeds create_datastore_by_type (actions.py lines 3994 to 4023): derive
the id from the key, return an EEXIST error dict without writing when the
backend already has a record under that id, and otherwise build and store a
fresh record and return a dict holding only status True. -/
def create_datastore_by_type (datastore_type privkey : String) (st : RpcState) :
    Res × RpcState :=
  let datastoreId := datastore_get_id (get_pubkey_hex privkey)
  match backend_datastore_get st datastoreId with
  | Except.ok _ => (Res.errNo "Datastore exists" EEXIST, st)
  | Except.error _ =>
    let info := make_datastore_info datastore_type
    let out := put_datastore st datastoreId info
    if out.1.hasError then out else (Res.okStatus, out.2)

/-- Embeds the helper of actions.py lines 3969 to 3991 that clears and then
deletes a datastore (its source name begins with an underscore).  When the
rmtree flag is set the datastore is emptied first; a failed rmtree without
force returns an ENOTEMPTY error dict with the backend state untouched,
while force proceeds to delete the record regardless. -/
def remove_datastore (st : RpcState) (ds : DStore) (privkey : String)
    (rmtree force : Bool) : Res × RpcState :=
  let datastoreId := datastore_get_id (get_pubkey_hex privkey)
  if rmtree then
    let out := datastore_rmtree ds
    if out.1.hasError && !force then
      (Res.errNo "Failed to remove all files and directories" ENOTEMPTY, st)
    else
      delete_datastore ⟨alistPut st.records datastoreId out.2⟩ datastoreId
  else
    delete_datastore st datastoreId

/-- Embeds delete_datastore_by_type (actions.py lines 4047 to 4072): fetch
the record, reject a type mismatch, and otherwise clear and delete through
the helper, with rmtree always requested. -/
def delete_datastore_by_type (datastore_type privkey : String) (force : Bool)
    (st : RpcState) : Res × RpcState :=
  let datastoreId := datastore_get_id (get_pubkey_hex privkey)
  match backend_datastore_get st datastoreId with
  | Except.error e => (e, st)
  | Except.ok ds =>
    if ds.dtype ≠ datastore_type then
      (Res.err (datastoreId ++ " is a " ++ ds.dtype), st)
    else
      let out := remove_datastore st ds privkey true force
      if out.1.hasError then out else (Res.okStatus, out.2)

/-- Lowercasing of an optional string attribute with the empty default, the
getattr-then-lower idiom of the cli layer. -/
def pyOptLower (v : Option String) : String := (v.getD "").toLower

/-- Membership of the lowered value in the list of the spellings 1, create
and true, as parsed by cli_datastore_putfile for its create option. -/
def pyBoolCreate (v : Option String) : Bool :=
  let s := pyOptLower v
  s = "1" || s = "create" || s = "true"

/-- Membership of the lowered value in the list of the spellings 1 and true,
as parsed by the cli layer for its force options. -/
def pyBoolForce (v : Option String) : Bool :=
  let s := pyOptLower v
  s = "1" || s = "true"

/-- The argument namespace of cli_datastore_putfile; optional attributes are
Option valued, a missing attribute being none. -/
structure PutfileArgs where
  privkey : String
  path : String
  data : String
  create : Option String
  force : Option String
  device_ids : Option String
deriving Repr, DecidableEq

/-- Embeds cli_datastore_putfile (actions.py lines 4485 to 4508).  The
function parses the create and force options and the device id list, then
calls datastore_file_put.  The call at line 4508 does not pass the parsed
force value on, so datastore_file_put runs with its Python default of
force False. -/
def cli_datastore_putfile (args : PutfileArgs) (force_data : Bool)
    (fs : List (String × String)) (st : RpcState) : Res × RpcState :=
  let create := pyBoolCreate args.create
  let force := pyBoolForce args.force
  let device_ids : Option (List String) :=
    if pyTruthy args.device_ids then some ((args.device_ids.getD "").splitOn ",")
    else none
  datastore_file_put "datastore" args.privkey args.path args.data
    create force_data false device_ids fs st

/-- The argument namespace of cli_datastore_getinode. -/
structure GetinodeArgs where
  datastore_id : String
  inode_uuid : String
  force : Option String
  idata : Option String
  device_ids : Option String
deriving Repr, DecidableEq

/-- Embeds cli_datastore_getinode (actions.py lines 4456 to 4482).  Line
4471 binds the local device_ids to None.  Line 4480 then computes
device_ids.split on that LOCAL variable rather than on args.device_ids, and
since the local is still None the attribute access raises AttributeError.
When the branch is not taken, the call at line 4482 passes a keyword
argument named force to datastore_inode_getinode, which has no parameter of
that name, so Python raises TypeError at the call. -/
def cli_datastore_getinode (args : GetinodeArgs) : Except PyExc Res := do
  let force := pyBoolForce args.force
  let idata := pyBoolForce args.idata
  let deviceIdsLocal : Option String := none
  let _parts ←
    if pyTruthy args.device_ids then do
      let parts ← pyNoneSplit deviceIdsLocal
      pure (some parts)
    else
      pure (none : Option (List String))
  let _ := force
  let _ := idata
  Except.error PyExc.typeError

/-- The argument namespace of cli_collection_statitem. -/
structure StatitemArgs where
  collection_id : String
  item_id : String
deriving Repr, DecidableEq

/-- Embeds cli_collection_statitem (actions.py lines 4643 to 4659).  The
statement at line 4654 reads password on its right hand side, but password
is neither a parameter of this function nor assigned before that line; the
assignment itself makes it a local variable, so Python raises
UnboundLocalError on the read.  The later call to datastore_path_stat with
a proxy keyword (which that function does not accept) would raise
TypeError, but it is unreachable. -/
def cli_collection_statitem (args : StatitemArgs) : Except PyExc Res := do
  let passwordLocal : Option String := none
  let _password ← pyReadLocal passwordLocal
  Except.error PyExc.typeError

theorem alistGet_remove_same {α β : Type} [DecidableEq α] (l : List (α × β)) (k : α) :
    alistGet (alistRemove l k) k = none := by
  induction l with
  | nil => simp [alistRemove, alistGet]
  | cons e rest ih =>
    simp only [alistRemove]
    by_cases he : e.1 = k
    · rw [if_pos he]; exact ih
    · rw [if_neg he, alistGet, if_neg he]; exact ih

/-! A spec model of the inode store with tombstones, for the deletion
claims.  The data layer that owns this behavior is absent from the sources. -/

/-- Modelled from the spec: the state of one datastore as seen through the
storage drivers (sections 3, 4.4 and 4.7).  entries maps each path to the
uuid of its file inode (the parent directory contents); envelopes maps each
inode uuid to the payload bytes a driver serves for it; tombs is the set of
per-device deletion tombstones; devices is the device set. -/
structure FS4 where
  entries : List (String × String)
  envelopes : List (String × String)
  tombs : List (String × String)
  devices : List String
deriving Repr, DecidableEq

/-- Modelled from the spec: is_tombstoned of the tombstone manager (section
4.7), absent from the sources; a data id is tombstoned when some device of
the device set has recorded a deletion marker for it. -/
def is_tombstoned (fs : FS4) (u : String) : Bool :=
  fs.devices.any (fun d => decide ((u, d) ∈ fs.tombs))

/-- Modelled from the spec: deletefile (section 4.6 deletefile row and the
invariant of section 3 that deletion is by tombstone, not physical removal).
The entry is removed from the parent and one tombstone per device of the
device set is emitted; the envelope bytes are untouched, since drivers may
retain them independently. -/
def deletefile (fs : FS4) (p : String) : Res × FS4 :=
  match alistGet fs.entries p with
  | none => (Res.errNo "No such file or directory" ENOENT, fs)
  | some u =>
    (Res.okStatus,
     ⟨alistRemove fs.entries p, fs.envelopes,
      fs.tombs ++ fs.devices.map (fun d => (u, d)), fs.devices⟩)

/-- Modelled from the spec: getfile read path (sections 4.6 getfile row, 4.7
and 8).  The path is resolved through a directory view, which a lagging
driver may serve stale; the tombstones are checked before the envelope is
trusted, and a tombstoned inode is rejected as deleted unless force is set;
failures surface as ENOENT. -/
def getfile_via (view : List (String × String)) (fs : FS4) (p : String)
    (force : Bool) : Res :=
  match alistGet view p with
  | none => Res.errNo "No such file or directory" ENOENT
  | some u =>
    if is_tombstoned fs u && !force then
      Res.errNo "No such file or directory" ENOENT
    else
      match alistGet fs.envelopes u with
      | some payload => Res.okFile payload
      | none => Res.errNo "No such file or directory" ENOENT

/-! A spec model of the version reconciler, for the monotonicity claim.  The
reconciler is part of the data layer, absent from the sources. -/

/-- Maximum of a list of naturals, zero for the empty list. -/
def natListMax (l : List Nat) : Nat := l.foldr max 0

theorem le_natListMax {l : List Nat} {a : Nat} (h : a ∈ l) : a ≤ natListMax l := by
  induction l with
  | nil => cases h
  | cons x rest ih =>
    rcases List.mem_cons.mp h with h1 | h2
    · simp [natListMax, List.foldr, h1, le_max_left]
    · calc a ≤ natListMax rest := ih h2
        _ ≤ max x (natListMax rest) := le_max_right _ _

theorem natListMax_le {l : List Nat} {b : Nat} (h : ∀ a ∈ l, a ≤ b) :
    natListMax l ≤ b := by
  induction l with
  | nil => simp [natListMax]
  | cons x rest ih =>
    simp only [natListMax, List.foldr] at ih ⊢
    exact max_le (h x (List.mem_cons_self x rest)) (ih fun a ha => h a (List.mem_cons_of_mem x ha))

/-- Modelled from the spec: the version state of the reconciler (section
4.3).  vers records the last version each device has written for each data
id; devices is the device set bounding the search for the current version. -/
structure VR where
  vers : List ((String × String) × Nat)
  devices : List String
deriving Repr, DecidableEq

/-- Modelled from the spec: current_version (section 4.3) queries each
device for its last recorded version of the data id, a miss counting as
zero, and returns the maximum. -/
def current_version (vr : VR) (dataId : String) : Nat :=
  natListMax (vr.devices.map (fun d => (alistGet vr.vers (dataId, d)).getD 0))

/-- Modelled from the spec: next_version is current_version plus one
(section 4.3), used for every write. -/
def next_version (vr : VR) (dataId : String) : Nat :=
  current_version vr dataId + 1

/-- Modelled from the spec: a successful write from a device records
next_version as that device entry for the data id (sections 4.3 and 4.4
save_inode). -/
def record_write (vr : VR) (dataId d : String) : VR :=
  ⟨alistPut vr.vers (dataId, d) (next_version vr dataId), vr.devices⟩

/-- Modelled from the spec: stat reports the authoritative version of the
inode, the maximum version currently known across all devices (section 3
inode fields and section 4.6 stat row). -/
def stat_version (vr : VR) (dataId : String) : Nat :=
  current_version vr dataId

theorem current_version_record_write (vr : VR) (dataId d : String)
    (h : d ∈ vr.devices) :
    current_version (record_write vr dataId d) dataId = current_version vr dataId + 1 := by
  have hvers : (record_write vr dataId d).vers
      = alistPut vr.vers (dataId, d) (next_version vr dataId) := rfl
  have hdev : (record_write vr dataId d).devices = vr.devices := rfl
  apply le_antisymm
  · apply natListMax_le
    intro a ha
    rcases List.mem_map.mp ha with ⟨d2, hd2, hval⟩
    rw [hdev] at hd2
    by_cases hdd : d2 = d
    · rw [hdd, hvers, alistGet_put_same] at hval
      simp only [Option.getD_some] at hval
      rw [← hval]
      simp [next_version]
    · have hne : (dataId, d2) ≠ (dataId, d) := fun hp => hdd (congrArg Prod.snd hp)
      rw [hvers, alistGet_put_ne _ _ _ _ hne] at hval
      have hle : a ≤ current_version vr dataId := by
        rw [← hval]
        exact le_natListMax (List.mem_map.mpr ⟨d2, hd2, rfl⟩)
      exact Nat.le_succ_of_le hle
  · have hmem : next_version vr dataId ≤ current_version (record_write vr dataId d) dataId := by
      apply le_natListMax
      apply List.mem_map.mpr
      refine ⟨d, ?_, ?_⟩
      · rw [hdev]; exact h
      · rw [hvers, alistGet_put_same]; rfl
    simpa [next_version] using hmem

/-! Concrete states used by the theorems below. -/

/-- A backend holding one datastore record whose parent directory is stale,
owned by the key k1. -/
def staleSt : RpcState :=
  ⟨[(datastore_get_id (get_pubkey_hex "k1"), ⟨"datastore", [], true, true⟩)]⟩

/-- The id of the collection record of collSt. -/
def collId : String := datastore_get_id (get_pubkey_hex "ck")

/-- A backend holding one collection-type record owned by the key ck. -/
def collSt : RpcState := ⟨[(collId, ⟨"collection", [], false, true⟩)]⟩

/-- The id of the datastore record of plainSt. -/
def plainId : String := datastore_get_id (get_pubkey_hex "k2")

/-- A backend holding one ordinary empty datastore record owned by the key
k2. -/
def plainSt : RpcState := ⟨[(plainId, ⟨"datastore", [], false, true⟩)]⟩

/-- A local filesystem holding one file named /f with contents zz. -/
def localFs : List (String × String) := [("/f", "zz")]

/-- C1: the exposed operations are claimed to always return a result object
and never to terminate by raising.  The collection variant
cli_collection_statitem refutes this: for every argument namespace it
raises UnboundLocalError, because line 4654 reads the local password before
any assignment to it. -/
theorem C1_statitem_raises (args : StatitemArgs) :
    cli_collection_statitem args = Except.error PyExc.unboundLocalError := rfl

/-- C9: whenever the args namespace of cli_datastore_getinode carries a
non-empty device_ids attribute, the function raises AttributeError, because
line 4480 calls split on the local device_ids variable, which is still None;
in particular no result dict is returned and nothing reaches the backend. -/
theorem C9_getinode_attribute_error (args : GetinodeArgs) (s : String)
    (h1 : args.device_ids = some s) (h2 : s ≠ "") :
    cli_datastore_getinode args = Except.error PyExc.attributeError := by
  simp only [cli_datastore_getinode, h1, pyTruthy, pyNoneSplit]
  rw [if_pos (decide_eq_true h2)]
  rfl

/-- Closed witness for C9 at a concrete argument namespace. -/
theorem C9_getinode_attribute_error_w :
    (⟨"ds1", "u1", none, none, some "d1,d2"⟩ : GetinodeArgs).device_ids = some "d1,d2"
    ∧ "d1,d2" ≠ ""
    ∧ cli_datastore_getinode ⟨"ds1", "u1", none, none, some "d1,d2"⟩
        = Except.error PyExc.attributeError :=
  ⟨rfl, by decide, C9_getinode_attribute_error ⟨"ds1", "u1", none, none, some "d1,d2"⟩ "d1,d2" rfl (by decide)⟩

/-- C3: the claim says the caller-supplied force flag of the putfile entry
points reaches the underlying write and suppresses the stale-parent EPERM
rejection.  In the source, cli_datastore_putfile parses args.force at line
4501 but the call at line 4508 does not pass it on, and datastore_file_put
likewise never forwards its own force parameter at line 4134; so on a stale
parent the write fails with EPERM for every value of the force option. -/
theorem C3_force_dropped (forceOpt : Option String) :
    (cli_datastore_putfile ⟨"k1", "/p", "somedata", none, forceOpt, none⟩ false [] staleSt).1
      = Res.errNo "Stale parent directory" EPERM := rfl

/-- C10: datastore_file_put never performs the datastore-type consistency
check: its result is independent of the datastore_type argument, so a
putfile issued through the datastore entry point against a collection-type
record succeeds, while datastore_file_get, datastore_dir_list and
datastore_path_stat on the same record all reject the type mismatch. -/
theorem C10_put_skips_type_check :
    (∀ (t1 t2 privkey path data : String) (create force_data force : Bool)
       (dids : Option (List String)) (fs : List (String × String)) (st : RpcState),
       datastore_file_put t1 privkey path data create force_data force dids fs st
         = datastore_file_put t2 privkey path data create force_data force dids fs st)
    ∧ (datastore_file_put "datastore" "ck" "/x" "hello" false false false none [] collSt).1.error
        = none
    ∧ (datastore_file_get "datastore" collId "/x" false none collSt).error.isSome = true
    ∧ (datastore_dir_list "datastore" collId "/" false none collSt).error.isSome = true
    ∧ (datastore_dir_list "datastore" collId "/" false none collSt).errno = some EINVAL
    ∧ (datastore_path_stat "datastore" collId "/" false none collSt).error.isSome = true :=
  ⟨fun _ _ _ _ _ _ _ _ _ _ _ => rfl, rfl, rfl, rfl, rfl, rfl⟩

/-- C5 counterexample: the claim says create_datastore returns the new
datastore id on success; at a concrete input the success dict is only
status True and carries no datastore id. -/
theorem C5_no_id_returned :
    (create_datastore_by_type "datastore" "k5" ⟨[]⟩).1.status = true
    ∧ (create_datastore_by_type "datastore" "k5" ⟨[]⟩).1.error = none
    ∧ (create_datastore_by_type "datastore" "k5" ⟨[]⟩).1.datastoreId = none :=
  ⟨rfl, rfl, rfl⟩

/-- C5 amended: create_datastore returns a dict holding only status True on
success (the id is derivable from the key but is not in the result), stores
the new record, and when a record under the derived id already exists it
returns an EEXIST error dict leaving the backend unchanged. -/
theorem C5_create_amended :
    (∀ (ty k : String) (st : RpcState),
       alistGet st.records (datastore_get_id (get_pubkey_hex k)) = none →
       create_datastore_by_type ty k st
         = (Res.okStatus,
            ⟨alistPut st.records (datastore_get_id (get_pubkey_hex k)) (make_datastore_info ty)⟩))
    ∧ (∀ (ty k : String) (st : RpcState) (ds : DStore),
       alistGet st.records (datastore_get_id (get_pubkey_hex k)) = some ds →
       create_datastore_by_type ty k st = (Res.errNo "Datastore exists" EEXIST, st)) := by
  constructor
  · intro ty k st h
    simp [create_datastore_by_type, backend_datastore_get, h, put_datastore, Res.hasError,
      Res.okStatus]
  · intro ty k st ds h
    simp [create_datastore_by_type, backend_datastore_get, h]

/-- Closed witness for C5 amended, at an empty backend and at a backend
already holding the record. -/
theorem C5_create_amended_w :
    (alistGet (⟨[]⟩ : RpcState).records (datastore_get_id (get_pubkey_hex "k5")) = none
     ∧ create_datastore_by_type "datastore" "k5" ⟨[]⟩
         = (Res.okStatus,
            ⟨alistPut (⟨[]⟩ : RpcState).records (datastore_get_id (get_pubkey_hex "k5"))
              (make_datastore_info "datastore")⟩))
    ∧ (alistGet plainSt.records (datastore_get_id (get_pubkey_hex "k2"))
         = some ⟨"datastore", [], false, true⟩
       ∧ create_datastore_by_type "datastore" "k2" plainSt
           = (Res.errNo "Datastore exists" EEXIST, plainSt)) :=
  ⟨⟨rfl, C5_create_amended.1 "datastore" "k5" ⟨[]⟩ rfl⟩,
   ⟨rfl, C5_create_amended.2 "datastore" "k2" plainSt ⟨"datastore", [], false, true⟩ rfl⟩⟩

/-- C6: when the internal rmtree of delete_datastore fails, a call without
force returns an ENOTEMPTY error dict and the datastore record survives
untouched, while a call with force deletes the record regardless. -/
theorem C6_delete_rmtree_failure (k : String) (st : RpcState) (ds : DStore)
    (h1 : alistGet st.records (datastore_get_id (get_pubkey_hex k)) = some ds)
    (h2 : ds.dtype = "datastore") (h3 : ds.rmtreeOk = false) :
    delete_datastore_by_type "datastore" k false st
      = (Res.errNo "Failed to remove all files and directories" ENOTEMPTY, st)
    ∧ (delete_datastore_by_type "datastore" k true st).1 = Res.okStatus
    ∧ alistGet (delete_datastore_by_type "datastore" k true st).2.records
        (datastore_get_id (get_pubkey_hex k)) = none := by
  have hmain : ∀ force : Bool,
      delete_datastore_by_type "datastore" k force st
        = if force then
            (Res.okStatus,
             ⟨alistRemove (alistPut st.records (datastore_get_id (get_pubkey_hex k)) ds)
               (datastore_get_id (get_pubkey_hex k))⟩)
          else (Res.errNo "Failed to remove all files and directories" ENOTEMPTY, st) := by
    intro force
    simp only [delete_datastore_by_type, backend_datastore_get, h1, remove_datastore,
      datastore_rmtree, h3, if_false, Bool.false_eq_true, h2]
    cases force with
    | false => rfl
    | true => rfl
  refine ⟨by rw [hmain false]; rfl, by rw [hmain true]; rfl, ?_⟩
  rw [hmain true]
  exact alistGet_remove_same _ _

/-- A backend holding one record, owned by the key k6, whose contents refuse
to be emptied. -/
def rmfailSt : RpcState :=
  ⟨[(datastore_get_id (get_pubkey_hex "k6"), ⟨"datastore", [("/a", "x")], false, false⟩)]⟩

/-- Closed witness for C6 at a backend whose single record refuses to be
emptied. -/
theorem C6_delete_rmtree_failure_w :
    (alistGet rmfailSt.records (datastore_get_id (get_pubkey_hex "k6"))
        = some ⟨"datastore", [("/a", "x")], false, false⟩)
    ∧ delete_datastore_by_type "datastore" "k6" false rmfailSt
        = (Res.errNo "Failed to remove all files and directories" ENOTEMPTY, rmfailSt)
    ∧ (delete_datastore_by_type "datastore" "k6" true rmfailSt).1 = Res.okStatus :=
  ⟨rfl,
   (C6_delete_rmtree_failure "k6" rmfailSt ⟨"datastore", [("/a", "x")], false, false⟩ rfl rfl rfl).1,
   (C6_delete_rmtree_failure "k6" rmfailSt ⟨"datastore", [("/a", "x")], false, false⟩ rfl rfl rfl).2.1⟩

/-- Splitting of a character list on the slash character, accumulating the
current segment in reverse. -/
def splitSlash : List Char → List Char → List String
  | [], acc => [String.mk acc.reverse]
  | c :: rest, acc =>
    if c = '/' then String.mk acc.reverse :: splitSlash rest []
    else splitSlash rest (c :: acc)

/-- Modelled from the spec: the path resolver splits the path on the slash
and discards empty segments (section 4.5). -/
def path_segments (p : String) : List String :=
  (splitSlash p.toList []).filter (fun s => s ≠ "")

/-- Modelled from the spec: for collection-type datastores every path is
restricted to a single segment directly under root; any deeper path fails
with InvalidArgument (section 4.5). -/
def collection_resolve_check (p : String) : Res :=
  if (path_segments p).length ≤ 1 then Res.okStatus
  else Res.errNo "Invalid argument" EINVAL

/-- C7: on a collection, any path deeper than one segment fails with
InvalidArgument in the resolver, and in particular datastore_dir_list on a
collection record with any path other than the root returns an error dict
with errno EINVAL, whichever type tag the caller requests. -/
theorem C7_collection_flat :
    (∀ p : String, 1 < (path_segments p).length →
       collection_resolve_check p = Res.errNo "Invalid argument" EINVAL)
    ∧ (∀ (ty datastoreId p : String) (st : RpcState) (ds : DStore),
       alistGet st.records datastoreId = some ds → ds.dtype = "collection" → p ≠ "/" →
       (datastore_dir_list ty datastoreId p false none st).errno = some EINVAL
       ∧ (datastore_dir_list ty datastoreId p false none st).error.isSome = true) := by
  constructor
  · intro p h
    rw [collection_resolve_check, if_neg (by omega)]
  · intro ty datastoreId p st ds h1 h2 h3
    simp only [datastore_dir_list, backend_datastore_get, h1, h2]
    by_cases hty : ty = "collection"
    · rw [hty]
      simp only [ne_eq, not_true_eq_false, if_false, decide_eq_true_eq]
      rw [if_pos]
      · exact ⟨rfl, rfl⟩
      · simp [h3]
    · rw [if_pos]
      · exact ⟨rfl, rfl⟩
      · exact fun hc => hty hc.symm

/-- Closed witness for C7 at a concrete deep path and a concrete collection
record. -/
theorem C7_collection_flat_w :
    1 < (path_segments "/a/b").length
    ∧ collection_resolve_check "/a/b" = Res.errNo "Invalid argument" EINVAL
    ∧ alistGet collSt.records collId = some ⟨"collection", [], false, true⟩
    ∧ (datastore_dir_list "collection" collId "/a" false none collSt).errno = some EINVAL :=
  ⟨by decide, C7_collection_flat.1 "/a/b" (by decide), rfl,
   (C7_collection_flat.2 "collection" collId "/a" collSt ⟨"collection", [], false, true⟩
     rfl rfl (by decide)).1⟩

/-- C2 counterexample: the round trip is claimed to hold even when the
payload is a string that is a valid pathname of an existing local file and
force_data is unset.  At such an input the putfile entry point silently
replaces the payload with the contents of the local file, so the subsequent
getfile returns those contents rather than the payload. -/
theorem C2_path_collision :
    (datastore_file_put "datastore" "k2" "/p" "/f" false false false none localFs plainSt).1.error
      = none
    ∧ (datastore_file_get "datastore" plainId "/p" false none
        (datastore_file_put "datastore" "k2" "/p" "/f" false false false none localFs plainSt).2).file
      = some "zz"
    ∧ "zz" ≠ "/f" :=
  ⟨rfl, rfl, by decide⟩

/-- C2 amended: a successful putfile followed by getfile returns exactly the
payload, provided the payload is not diverted to the local filesystem: the
caller set force_data, or the payload is not a valid path, or no local file
of that name exists. -/
theorem C2_roundtrip_amended (k P B : String) (fd : Bool)
    (fs : List (String × String)) (st : RpcState) (ds : DStore)
    (hrec : alistGet st.records (datastore_get_id (get_pubkey_hex k)) = some ds)
    (htype : ds.dtype = "datastore")
    (hnofile : fd = true ∨ is_valid_path B = false ∨ os_path_exists fs B = false) :
    (datastore_file_put "datastore" k P B false fd false none fs st).1.error = none →
    (datastore_file_get "datastore" (datastore_get_id (get_pubkey_hex k)) P false none
        (datastore_file_put "datastore" k P B false fd false none fs st).2).file = some B := by
  have hcond : (is_valid_path B && os_path_exists fs B && !fd) = false := by
    rcases hnofile with h | h | h <;> simp [h]
  intro hok
  simp only [datastore_file_put, hcond, Bool.false_eq_true, if_false, backend_datastore_get,
    hrec] at hok ⊢
  cases hstale : ds.parentStale with
  | true =>
    simp [datastore_putfile, hstale, Res.errNo] at hok
  | false =>
    simp only [datastore_putfile, hstale, Bool.false_and, Bool.false_eq_true, if_false,
      Bool.false_or, Option.isSome_none, Bool.and_false]
    simp only [datastore_file_get, backend_datastore_get, alistGet_put_same]
    simp [htype, datastore_getfile, alistGet_put_same, Res.okFile]

/-- Closed witness for C2 amended at a payload that names no local file. -/
theorem C2_roundtrip_amended_w :
    alistGet plainSt.records (datastore_get_id (get_pubkey_hex "k2"))
      = some ⟨"datastore", [], false, true⟩
    ∧ os_path_exists [] "hello" = false
    ∧ (datastore_file_get "datastore" (datastore_get_id (get_pubkey_hex "k2")) "/q" false none
        (datastore_file_put "datastore" "k2" "/q" "hello" false false false none [] plainSt).2).file
      = some "hello" :=
  ⟨rfl, rfl,
   C2_roundtrip_amended "k2" "/q" "hello" false [] plainSt ⟨"datastore", [], false, true⟩
     rfl rfl (Or.inr (Or.inr rfl)) rfl⟩

/-- C4: after a successful deletefile, getfile without force fails with
ENOENT, both through the post-deletion directory and through the stale
pre-deletion directory view, even though the drivers still serve the
pre-deletion envelope bytes of the inode: the tombstone check rejects them. -/
theorem C4_tombstone_enforcement (fs : FS4) (p u b : String)
    (h1 : alistGet fs.entries p = some u)
    (h2 : alistGet fs.envelopes u = some b)
    (h3 : fs.devices ≠ []) :
    (deletefile fs p).1 = Res.okStatus
    ∧ (deletefile fs p).2.envelopes = fs.envelopes
    ∧ (getfile_via (deletefile fs p).2.entries (deletefile fs p).2 p false).errno = some ENOENT
    ∧ (getfile_via fs.entries (deletefile fs p).2 p false).errno = some ENOENT := by
  obtain ⟨d0, rest, hdev⟩ : ∃ d0 rest, fs.devices = d0 :: rest := by
    cases hd : fs.devices with
    | nil => exact absurd hd h3
    | cons a l => exact ⟨a, l, rfl⟩
  simp only [deletefile, h1]
  refine ⟨by trivial, by trivial, ?_, ?_⟩
  · simp [getfile_via, alistGet_remove_same, Res.errNo]
  · have htomb : is_tombstoned
        ⟨alistRemove fs.entries p, fs.envelopes,
         fs.tombs ++ fs.devices.map (fun d => (u, d)), fs.devices⟩ u = true := by
      apply List.any_eq_true.mpr
      refine ⟨d0, ?_, ?_⟩
      · show d0 ∈ fs.devices
        rw [hdev]
        exact List.mem_cons_self _ _
      · apply decide_eq_true
        apply List.mem_append.mpr
        refine Or.inr (List.mem_map.mpr ⟨d0, ?_, rfl⟩)
        rw [hdev]
        exact List.mem_cons_self _ _
    simp [getfile_via, h1, htomb, Res.errNo]

/-- A one-file, one-device datastore state for the deletion witness. -/
def fs4sample : FS4 := ⟨[("/p", "u1")], [("u1", "bytes")], [], ["dev1"]⟩

/-- Closed witness for C4 at a concrete one-file state. -/
theorem C4_tombstone_enforcement_w :
    alistGet fs4sample.entries "/p" = some "u1"
    ∧ alistGet fs4sample.envelopes "u1" = some "bytes"
    ∧ fs4sample.devices ≠ []
    ∧ (getfile_via fs4sample.entries (deletefile fs4sample "/p").2 "/p" false).errno
        = some ENOENT :=
  ⟨rfl, rfl, by decide,
   (C4_tombstone_enforcement fs4sample "/p" "u1" "bytes" rfl rfl (by decide)).2.2.2⟩

/-- C8: a successful write from a device of the device set strictly
increases the version reported by stat, and the version stored for that
(data id, device) pair strictly increases as well. -/
theorem C8_version_monotonic (vr : VR) (dataId d : String) (h : d ∈ vr.devices) :
    stat_version (record_write vr dataId d) dataId > stat_version vr dataId
    ∧ (alistGet (record_write vr dataId d).vers (dataId, d)).getD 0
        > (alistGet vr.vers (dataId, d)).getD 0 := by
  constructor
  · rw [stat_version, stat_version, current_version_record_write vr dataId d h]
    exact Nat.lt_succ_self _
  · have hnew : alistGet (record_write vr dataId d).vers (dataId, d)
        = some (next_version vr dataId) := alistGet_put_same _ _ _
    rw [hnew]
    have hold : (alistGet vr.vers (dataId, d)).getD 0 ≤ current_version vr dataId :=
      le_natListMax (List.mem_map.mpr ⟨d, h, rfl⟩)
    simp only [Option.getD_some, next_version]
    omega

/-- A fresh one-device reconciler state for the version witness. -/
def vrSample : VR := ⟨[], ["dev1"]⟩

/-- Closed witness for C8 at a fresh one-device state. -/
theorem C8_version_monotonic_w :
    "dev1" ∈ vrSample.devices
    ∧ stat_version (record_write vrSample "u1" "dev1") "u1" > stat_version vrSample "u1" :=
  ⟨by decide, (C8_version_monotonic vrSample "u1" "dev1" (by decide)).1⟩

end Blockstack
